import Mathlib

set_option maxRecDepth 4000
set_option linter.unusedVariables false

namespace FinCompiler

/-! Shallow embedding of the retrieval-identify-reformat pipeline
(`reportChain` in the repository source, together with the helpers it
relies on: `searchTemplate`, `idImprovedTemplate`, `htmlFormattingTemplate`,
the candidate formatting step, the id-matching step, and the two
`JSON.parse` calls).  External collaborators (the Pinecone retriever and
the chat model) are modelled as explicit function-valued parameters, so
that every run of the pipeline is a pure function of the document array,
the configuration and the external clients. -/

/-- A JSON value as produced by the JavaScript builtin `JSON.parse`.
Numbers keep their source lexeme: no claim in this development depends on
numeric display semantics, and keeping the lexeme avoids committing to a
floating-point representation.  Object fields are kept in source order;
duplicate keys are resolved (last occurrence wins) at lookup time, which
matches `JSON.parse`. -/
inductive Json where
  | null : Json
  | bool : Bool → Json
  | num : String → Json
  | str : String → Json
  | arr : List Json → Json
  | obj : List (String × Json) → Json
deriving Repr

/-- JSON insignificant whitespace characters. -/
def isJsonWs (c : Char) : Bool :=
  c = ' ' || c = '\t' || c = '\n' || c = '\r'

/-- Drop leading JSON whitespace. -/
def skipWsL : List Char → List Char
  | [] => []
  | c :: cs => if isJsonWs c then skipWsL cs else c :: cs

/-- Value of a hexadecimal digit. -/
def hexVal (c : Char) : Option Nat :=
  if 48 ≤ c.toNat && c.toNat ≤ 57 then some (c.toNat - 48)
  else if 97 ≤ c.toNat && c.toNat ≤ 102 then some (c.toNat - 87)
  else if 65 ≤ c.toNat && c.toNat ≤ 70 then some (c.toNat - 55)
  else none

/-- Single-character JSON string escapes. -/
def escChar (c : Char) : Option Char :=
  if c = '"' then some '"'
  else if c = '\\' then some '\\'
  else if c = '/' then some '/'
  else if c = 'b' then some '\x08'
  else if c = 'f' then some '\x0c'
  else if c = 'n' then some '\n'
  else if c = 'r' then some '\r'
  else if c = 't' then some '\t'
  else none

/-- Parse the body of a JSON string (after the opening quote), returning the
decoded characters and the remainder after the closing quote.  Unescaped
control characters are rejected, as in `JSON.parse`. -/
def parseStrBody : List Char → Option (List Char × List Char)
  | [] => none
  | c :: cs =>
    if c = '"' then some ([], cs)
    else if c = '\\' then
      match cs with
      | [] => none
      | e :: cs2 =>
        if e = 'u' then
          match cs2 with
          | h1 :: h2 :: h3 :: h4 :: cs3 =>
            match hexVal h1, hexVal h2, hexVal h3, hexVal h4 with
            | some a, some b, some c3, some d =>
              match parseStrBody cs3 with
              | some (content, rest) =>
                some (Char.ofNat (((a * 16 + b) * 16 + c3) * 16 + d) :: content, rest)
              | none => none
            | _, _, _, _ => none
          | _ => none
        else
          match escChar e with
          | some ec =>
            match parseStrBody cs2 with
            | some (content, rest) => some (ec :: content, rest)
            | none => none
          | none => none
    else if c.toNat < 32 then none
    else
      match parseStrBody cs with
      | some (content, rest) => some (c :: content, rest)
      | none => none

/-- Decimal digit test. -/
def isDigitCh (c : Char) : Bool := 48 ≤ c.toNat && c.toNat ≤ 57

/-- Split a leading run of decimal digits off a character list. -/
def takeDigits : List Char → List Char × List Char
  | [] => ([], [])
  | c :: cs =>
    if isDigitCh c then
      match takeDigits cs with
      | (ds, rest) => (c :: ds, rest)
    else ([], c :: cs)

/-- Integer part of a JSON number: a single 0, or a nonzero digit followed
by digits (JSON forbids redundant leading zeros). -/
def parseJsonIntPart : List Char → Option (List Char × List Char)
  | [] => none
  | c :: cs =>
    if c = '0' then some ([c], cs)
    else if isDigitCh c then
      match takeDigits cs with
      | (ds, rest) => some (c :: ds, rest)
    else none

/-- Optional fractional part of a JSON number. -/
def parseFracPart : List Char → Option (List Char × List Char)
  | '.' :: cs =>
    match takeDigits cs with
    | ([], _) => none
    | (ds, rest) => some ('.' :: ds, rest)
  | cs => some ([], cs)

/-- Optional exponent part of a JSON number. -/
def parseExpPart : List Char → Option (List Char × List Char)
  | [] => some ([], [])
  | c :: cs =>
    if c = 'e' || c = 'E' then
      match cs with
      | [] => none
      | s :: cs2 =>
        if s = '+' || s = '-' then
          match takeDigits cs2 with
          | ([], _) => none
          | (ds, rest) => some (c :: s :: ds, rest)
        else
          match takeDigits (s :: cs2) with
          | ([], _) => none
          | (ds, rest) => some (c :: ds, rest)
    else some ([], c :: cs)

/-- Unsigned JSON number lexeme. -/
def parseNumBody (cs : List Char) : Option (List Char × List Char) :=
  match parseJsonIntPart cs with
  | none => none
  | some (ip, r1) =>
    match parseFracPart r1 with
    | none => none
    | some (fp, r2) =>
      match parseExpPart r2 with
      | none => none
      | some (ep, r3) => some (ip ++ fp ++ ep, r3)

/-- JSON number lexeme with optional leading minus sign. -/
def parseNumLex : List Char → Option (List Char × List Char)
  | '-' :: cs =>
    match parseNumBody cs with
    | some (lex, rest) => some ('-' :: lex, rest)
    | none => none
  | cs => parseNumBody cs

mutual

/-- Recursive-descent parser for one JSON value, embedding the grammar
accepted by `JSON.parse`.  The fuel argument only bounds recursion depth;
`jsonParse` supplies more fuel than any input of its length can consume. -/
def parseVal : Nat → List Char → Option (Json × List Char)
  | 0, _ => none
  | fuel + 1, cs =>
    match skipWsL cs with
    | [] => none
    | c :: rest =>
      if c = '"' then
        match parseStrBody rest with
        | some (content, r) => some (Json.str (String.mk content), r)
        | none => none
      else if c = '\x7b' then
        match skipWsL rest with
        | '\x7d' :: r => some (Json.obj [], r)
        | r =>
          match parseMembers fuel r with
          | some (ms, r2) => some (Json.obj ms, r2)
          | none => none
      else if c = '[' then
        match skipWsL rest with
        | ']' :: r => some (Json.arr [], r)
        | r =>
          match parseElems fuel r with
          | some (xs, r2) => some (Json.arr xs, r2)
          | none => none
      else if c = 't' then
        match rest with
        | 'r' :: 'u' :: 'e' :: r => some (Json.bool true, r)
        | _ => none
      else if c = 'f' then
        match rest with
        | 'a' :: 'l' :: 's' :: 'e' :: r => some (Json.bool false, r)
        | _ => none
      else if c = 'n' then
        match rest with
        | 'u' :: 'l' :: 'l' :: r => some (Json.null, r)
        | _ => none
      else
        match parseNumLex (c :: rest) with
        | some (lex, r) => some (Json.num (String.mk lex), r)
        | none => none

/-- Members of a JSON object (after the opening brace, at least one member). -/
def parseMembers : Nat → List Char → Option (List (String × Json) × List Char)
  | 0, _ => none
  | fuel + 1, cs =>
    match skipWsL cs with
    | '"' :: rest =>
      match parseStrBody rest with
      | some (key, r1) =>
        match skipWsL r1 with
        | ':' :: r2 =>
          match parseVal fuel r2 with
          | some (v, r3) =>
            match skipWsL r3 with
            | ',' :: r4 =>
              match parseMembers fuel r4 with
              | some (ms, r5) => some ((String.mk key, v) :: ms, r5)
              | none => none
            | '\x7d' :: r4 => some ([(String.mk key, v)], r4)
            | _ => none
          | none => none
        | _ => none
      | none => none
    | _ => none

/-- Elements of a JSON array (after the opening bracket, at least one element). -/
def parseElems : Nat → List Char → Option (List Json × List Char)
  | 0, _ => none
  | fuel + 1, cs =>
    match parseVal fuel cs with
    | some (v, r1) =>
      match skipWsL r1 with
      | ',' :: r2 =>
        match parseElems fuel r2 with
        | some (xs, r3) => some (v :: xs, r3)
        | none => none
      | ']' :: r2 => some ([v], r2)
      | _ => none
    | none => none

end

/-- Model of the JavaScript builtin `JSON.parse`: `some` on a valid JSON
document (a single value with optional surrounding whitespace), `none` when
`JSON.parse` would throw a `SyntaxError`. -/
def jsonParse (s : String) : Option Json :=
  match parseVal (2 * s.data.length + 2) s.data with
  | some (j, rest) => if skipWsL rest = [] then some j else none
  | none => none

/-- Lookup of an object field where the last occurrence of a duplicated key
wins, as in the object built by `JSON.parse`. -/
def lookupLast (k : String) : List (String × Json) → Option Json
  | [] => none
  | (k2, v) :: rest =>
    match lookupLast k rest with
    | some r => some r
    | none => if k2 = k then some v else none

/-- JavaScript optional-chained property access `result?.element_id` on a
parsed JSON value: a field of an object, `undefined` (here `none`) on
non-objects, `null`, arrays, and objects lacking the field. -/
def Json.getField : Json → String → Option Json
  | Json.obj fields, k => lookupLast k fields
  | _, _ => none

/-- Numeric value of a digit run. -/
def digitsVal (ds : List Char) : Nat :=
  ds.foldl (fun acc c => acc * 10 + (c.toNat - 48)) 0

/-- Exact rational value of a sign/mantissa/fraction/exponent decimal. -/
def ratOfDigits (intD fracD : List Char) (exp : Int) (neg : Bool) : Rat :=
  let m : Nat := digitsVal (intD ++ fracD)
  let base : Rat := (m : Rat) / ((10 : Rat) ^ fracD.length)
  let shifted : Rat :=
    if 0 ≤ exp then base * (10 : Rat) ^ exp.toNat else base / ((10 : Rat) ^ (-exp).toNat)
  if neg then -shifted else shifted

/-- Optional leading sign of a decimal literal. -/
def parseSignCh : List Char → Bool × List Char
  | '-' :: cs => (true, cs)
  | '+' :: cs => (false, cs)
  | cs => (false, cs)

/-- Optional exponent of a decimal literal, as a signed integer. -/
def parseExpNum : List Char → Option (Int × List Char)
  | [] => some (0, [])
  | c :: cs =>
    if c = 'e' || c = 'E' then
      match parseSignCh cs with
      | (eneg, r1) =>
        match takeDigits r1 with
        | ([], _) => none
        | (ds, r2) =>
          some ((if eneg then -(digitsVal ds : Int) else (digitsVal ds : Int)), r2)
    else some (0, c :: cs)

/-- Exact rational value of a decimal literal `[+-]? digits [. digits] [e ...]`
(also accepting `.digits` and `digits.`), consuming the whole input. -/
def ratOfDecCore (cs : List Char) : Option Rat :=
  match parseSignCh cs with
  | (neg, r0) =>
    match takeDigits r0 with
    | (intD, r1) =>
      match r1 with
      | '.' :: r2 =>
        match takeDigits r2 with
        | (fracD, r3) =>
          if intD = [] && fracD = [] then none
          else
            match parseExpNum r3 with
            | some (e, r4) => if r4 = [] then some (ratOfDigits intD fracD e neg) else none
            | none => none
      | _ =>
        if intD = [] then none
        else
          match parseExpNum r1 with
          | some (e, r4) => if r4 = [] then some (ratOfDigits intD [] e neg) else none
          | none => none

/-- ECMAScript whitespace accepted by `ToNumber` on strings (the common
cases; exotic Unicode spaces are not modelled). -/
def isEcmaWs (c : Char) : Bool := isJsonWs c || c = '\x0b' || c = '\x0c' || c = '\xa0'

/-- Trim whitespace from both ends. -/
def trimEnds (cs : List Char) : List Char :=
  ((cs.dropWhile isEcmaWs).reverse.dropWhile isEcmaWs).reverse

/-- ECMAScript `ToNumber` on a string, restricted to finite decimal forms:
the empty or all-whitespace string converts to 0, a decimal literal to its
exact rational value, and anything else (which converts to NaN, an
infinity, or needs hexadecimal forms) to `none`, which the loose-equality
model below treats as never equal. -/
def jsStrToRat (s : String) : Option Rat :=
  match trimEnds s.data with
  | [] => some 0
  | t => ratOfDecCore t

mutual

/-- JavaScript string coercion of a JSON value as it occurs inside
`Array.prototype.toString` (comma join).  Numbers keep their lexeme, which
models `Number.prototype.toString` up to display normalisation; no claim in
this development exercises that branch. -/
def jsDisplayElem : Json → String
  | Json.null => ""
  | Json.bool b => cond b "true" "false"
  | Json.num lex => lex
  | Json.str s => s
  | Json.arr xs => jsDisplayList xs
  | Json.obj _ => "[object Object]"

/-- Comma join of JavaScript string coercions, as in `Array.prototype.join`. -/
def jsDisplayList : List Json → String
  | [] => ""
  | [x] => jsDisplayElem x
  | x :: y :: xs => jsDisplayElem x ++ "," ++ jsDisplayList (y :: xs)

end

/-- JavaScript loose equality `doc.metadata.element_id == docMatchID` as it
occurs in the id-matching step: the left side is a string or `undefined`
(the `element_id` metadata field), the right side a JSON value or
`undefined` (the `element_id` field of the parsed model decision).
Follows the ECMA-262 Abstract Equality algorithm for these operand types:
`undefined` equals only `undefined` and `null`; string versus string is
exact equality; string versus number or boolean compares numeric values
(modelled with exact rationals); string versus array or object compares
against the string coercion of the value. -/
def jsEqMeta (metaId : Option String) (v : Option Json) : Bool :=
  match metaId, v with
  | none, none => true
  | none, some Json.null => true
  | none, some _ => false
  | some _, none => false
  | some _, some Json.null => false
  | some s, some (Json.str t) => decide (s = t)
  | some s, some (Json.num lex) =>
    match jsStrToRat s, ratOfDecCore lex.data with
    | some a, some b => decide (a = b)
    | _, _ => false
  | some s, some (Json.bool b) =>
    match jsStrToRat s with
    | some a => decide (a = (if b then 1 else 0))
    | none => false
  | some s, some (Json.arr xs) => decide (s = jsDisplayElem (Json.arr xs))
  | some s, some (Json.obj _) => decide (s = "[object Object]")

/-! ## Data model of the pipeline -/

/-- The validated request configuration (`docConfigSchema`): four string
fields. -/
structure DocConfig where
  docName : String
  companyName : String
  docType : String
  reportType : String
deriving Repr, DecidableEq

/-- The metadata fields of a langchain `Document` that `reportChain` reads.
Every field is optional, mirroring free-form JavaScript metadata objects:
`none` models an absent property (`undefined`). -/
structure DocMetadata where
  element_id : Option String
  filename : Option String
  text_preview : Option String
  text_as_html : Option String
deriving Repr, DecidableEq

/-- A langchain `Document`: page content plus metadata. -/
structure Document where
  pageContent : String
  metadata : DocMetadata
deriving Repr, DecidableEq

/-- The two external collaborators of the pipeline, passed in as
deterministic functions: the vector-store retriever
(`vectorStoreRetriver.invoke`) and the chat model composed with the string
output parser (`llm.invoke` then `outputParser.invoke`). -/
structure ExternalClients where
  retrieve : String → List Document
  llm : String → String

/-- The error outcomes of a `reportChain` run in this model: the exception
thrown by `JSON.parse` in the selection-parsing step (step 6 of the chain),
or by `JSON.parse` on the final chain output.  Each carries the raw model
response that failed to parse. -/
inductive ChainError where
  | selectionParseError (raw : String)
  | reformatParseError (raw : String)
deriving Repr, DecidableEq

/-- JavaScript `x || d` fallback on an optional string property: absent and
empty strings are falsy and give the default. -/
def jsOrDefault (v : Option String) (d : String) : String :=
  match v with
  | none => d
  | some s => if s = "" then d else s

/-- Template interpolation of an optional string property without fallback:
an absent property renders as the text `undefined`, as in JavaScript
string interpolation. -/
def jsUndef (v : Option String) : String :=
  match v with
  | none => "undefined"
  | some s => s

/-- Step 1 of the chain: `searchTemplate` rendered with the configuration.
The template text is
`What is \x7bcompanyName\x7ds \x7breportType\x7d for their \x7bdocType\x7d statement?`;
note that `docName` is not an input variable of this template. -/
def searchQuery (cfg : DocConfig) : String :=
  "What is " ++ cfg.companyName ++ "s " ++ cfg.reportType ++ " for their " ++
    cfg.docType ++ " statement?"

/-- Step 3 of the chain, one candidate block: the fixed text rendered for a
retrieved document, with `|| 'unknown'` fallbacks on id and filename and a
bare interpolation of the text preview. -/
def formatCandidate (idx : Nat) (d : Document) : String :=
  "Document " ++ toString (idx + 1) ++ ":\n- Element ID: " ++
    jsOrDefault d.metadata.element_id "unknown" ++ "\n- Source/Filename: " ++
    jsOrDefault d.metadata.filename "unknown" ++ "\n- Content snippet: " ++
    jsUndef d.metadata.text_preview ++ "..."

/-- `Array.prototype.join` with a blank-line separator. -/
def joinBlankLine : List String → String
  | [] => ""
  | [s] => s
  | s :: t :: rest => s ++ "\n\n" ++ joinBlankLine (t :: rest)

/-- Step 3 of the chain: all retrieved candidates rendered and joined. -/
def formattedDocsFor (docs : List Document) : String :=
  joinBlankLine (docs.enum.map (fun p => formatCandidate p.1 p.2))

/-- Step 4 of the chain: `idImprovedTemplate` rendered with the formatted
candidates and the configuration fields. -/
def idPromptFor (formattedDocs reportType companyName docType : String) : String :=
  "You are responsible for identifying which document from the returned results is likely to be the "
    ++ reportType ++ " \n    from " ++ companyName ++ "\x27s " ++ docType ++
    ".\n\n    Below are the documents that were retrieved:\n\n    " ++ formattedDocs ++
    "\n\n    Please identify which document contains the " ++ reportType ++ " for " ++
    companyName ++ "\x27s " ++ docType ++
    ".\n    Return your answer as a JSON object with the following format:\n\n    \x7b\n      \"element_id\": \"the element_id of the identified document\",\n      \"filename\": \"the source/filename of the identified document\"\n    \x7d\n\n    Return ONLY the JSON with no markdown formatting, no +\"\"+ json blocks, and no additional text before or after the JSON.\n    Make sure to include the exact element_id and source/filename from the metadata of the document you identify."

/-- Step 8 of the chain: `htmlFormattingTemplate` rendered with the fetched
table content. -/
def htmlPromptFor (tableContent : String) : String :=
  "You are a system responsible for formatting html tables, you will be passed html-like content that contains formatting issues\n    your role is to assess the content provided, identify mistakes, and improve / enrich the formatting while staying as critically accurate to the underlying data\n    given in the tables\n\n    Below are is the provided table content: \n\n    "
    ++ tableContent ++
    "\n\n    Return your answer as a JSON object with the following format: \n\n    \x7b\n      \"reformatted_content\": \"your output improved html-formatted content\" \n    \x7d\n\n    Return ONLY the JSON with no markdown formatting, no +\"\"+ json blocks, and no additional text before or after the JSON.\n    Make sure to include the exact element_id and source/filename from the metadata of the document you identify."

/-- Step 2 of the chain: the retriever invoked with the formatted search
query. -/
def candidates (cfg : DocConfig) (ext : ExternalClients) : List Document :=
  ext.retrieve (searchQuery cfg)

/-- Steps 3 and 4 of the chain: the disambiguation prompt for a run. -/
def selectionPrompt (cfg : DocConfig) (ext : ExternalClients) : String :=
  idPromptFor (formattedDocsFor (candidates cfg ext)) cfg.reportType cfg.companyName cfg.docType

/-- Step 5 of the chain: the raw text the model returns for the
disambiguation prompt. -/
def selectionResponse (cfg : DocConfig) (ext : ExternalClients) : String :=
  ext.llm (selectionPrompt cfg ext)

/-- Step 7 of the chain: `docArray.find` with the loose-equality callback on
`element_id`, run against the full document array (not the candidate set). -/
def resolvedDoc (docArray : List Document) (j : Json) : Option Document :=
  docArray.find? (fun d => jsEqMeta d.metadata.element_id (Json.getField j "element_id"))

/-- Step 7 of the chain, continued: `matchedDoc?.metadata?.text_as_html`. -/
def tableContentOf (docArray : List Document) (j : Json) : Option String :=
  (resolvedDoc docArray j).bind (fun d => d.metadata.text_as_html)

/-- Step 8 of the chain: the reformatting prompt, with an absent table
content interpolated as the text `undefined`. -/
def reformatPromptFor (docArray : List Document) (j : Json) : String :=
  htmlPromptFor (jsUndef (tableContentOf docArray j))

/-- Step 9 of the chain: the raw text the model returns for the
reformatting prompt. -/
def reformatResponse (docArray : List Document) (cfg : DocConfig) (ext : ExternalClients)
    (j : Json) : String :=
  ext.llm (reformatPromptFor docArray j)

/-- Steps 8 to 10 of the chain plus the final `JSON.parse` in
`reportChain`: given the parsed selection decision, build the reformat
prompt, call the model, and parse its answer; a parse failure is the thrown
`SyntaxError`, surfaced unchanged by the surrounding try/catch. -/
def finishReformat (docArray : List Document) (cfg : DocConfig) (ext : ExternalClients)
    (j : Json) : Except ChainError Json :=
  match jsonParse (reformatResponse docArray cfg ext j) with
  | none => Except.error (ChainError.reformatParseError (reformatResponse docArray cfg ext j))
  | some out => Except.ok out

/-- The whole pipeline `reportChain(docArray, docConfig)`: format the
search query, retrieve, format candidates, render the disambiguation
prompt, call the model, `JSON.parse` its decision (step 6; a failure throws
and aborts the run), resolve the decision against the document array, fetch
the table content, render the reformat prompt, call the model again, and
`JSON.parse` the final output, which is returned as-is.  The catch block in
the source only logs and rethrows, so errors surface unchanged. -/
def reportChain (docArray : List Document) (cfg : DocConfig) (ext : ExternalClients) :
    Except ChainError Json :=
  match jsonParse (selectionResponse cfg ext) with
  | none => Except.error (ChainError.selectionParseError (selectionResponse cfg ext))
  | some j => finishReformat docArray cfg ext j

/-! ## String containment helpers -/

/-- The first list is a leading segment of the second. -/
def leadsL : List Char → List Char → Bool
  | [], _ => true
  | _ :: _, [] => false
  | c :: cs, d :: ds => c = d && leadsL cs ds

/-- The pattern occurs as a leading segment of the text. -/
def leadsWith (pat s : String) : Bool := leadsL pat.data s.data

/-- The pattern occurs contiguously somewhere in the text. -/
def hasSubL (pat : List Char) : List Char → Bool
  | [] => leadsL pat []
  | c :: cs => leadsL pat (c :: cs) || hasSubL pat cs

/-- Substring containment on strings. -/
def hasSub (pat s : String) : Bool := hasSubL pat.data s.data

/-! ## Concrete fixtures used by witnesses and counterexamples -/

/-- A document array element with the given id and optional
`text_as_html`, shaped like the ingested filing chunks. -/
def mkDoc (id : String) (html : Option String) : Document :=
  ⟨"", ⟨some id, some "f.pdf", some "preview", html⟩⟩

/-- A well-behaved selection decision naming the given element id, as the
disambiguation model is instructed to answer. -/
def selFor (id : String) : String :=
  "\x7b\"element_id\": \"" ++ id ++ "\", \"filename\": \"f.pdf\"\x7d"

/-- A well-behaved reformatting answer. -/
def refGoodResp : String :=
  "\x7b\"reformatted_content\": \"<table>ok</table>\"\x7d"

/-- The parsed value of `refGoodResp`. -/
def refGoodJson : Json :=
  Json.obj [("reformatted_content", Json.str "<table>ok</table>")]

/-- Deterministic stub clients: the retriever always returns the given
candidate list, and the model answers the reformatting prompt (which starts
with the text `You are a system`) with `refResp` and every other prompt
with `selResp`. -/
def stubExt (cands : List Document) (selResp refResp : String) : ExternalClients :=
  ⟨fun _ => cands, fun p => if leadsWith "You are a system" p then refResp else selResp⟩

/-- A sample validated configuration. -/
def cfgA : DocConfig :=
  ⟨"hood-10Q.pdf.json", "Robinhood", "10-Q", "Balance Sheet"⟩

/-- A configuration whose document name occurs nowhere else, to probe the
search query text. -/
def cfg5 : DocConfig := ⟨"XYZDOC", "Acme", "10-Q", "Balance Sheet"⟩

/-- The raw table markup of end-to-end scenario A. -/
def scenHtml : String :=
  "<table><tr><td>Total Assets</td><td>500</td></tr></table>"

/-- The scenario A element, with the raw markup as its `text_as_html`. -/
def scenDoc : Document := mkDoc "e1" (some scenHtml)

/-- The scenario A reformatting answer: the model echoes the markup. -/
def scenRefResp : String :=
  "\x7b\"reformatted_content\": \"" ++ scenHtml ++ "\"\x7d"

/-- Stub clients whose model answers with free-form prose everywhere. -/
def extProse : ExternalClients := ⟨fun _ => [], fun _ => "free-form prose"⟩

/-- Stub clients whose reformatting model answers with prose that is not
JSON, while the selection model behaves. -/
def extBadReformat : ExternalClients :=
  stubExt [mkDoc "e1" (some "<t>x</t>")] (selFor "e1") "nonsense"

/-- Two deterministic stub clients with identical behaviour, declared
separately. -/
def stub9a : ExternalClients :=
  stubExt [mkDoc "e1" (some "x")] (selFor "e1") refGoodResp

/-- See `stub9a`. -/
def stub9b : ExternalClients :=
  stubExt [mkDoc "e1" (some "x")] (selFor "e1") refGoodResp

/-- Configurations differing only in `docName`. -/
def cfg10a : DocConfig := ⟨"name-a", "Robinhood", "10-Q", "Balance Sheet"⟩

/-- See `cfg10a`. -/
def cfg10b : DocConfig := ⟨"name-b", "Robinhood", "10-Q", "Balance Sheet"⟩

/-! ## General lemmas -/

/-- Appending strings appends their character data. -/
theorem data_append (a b : String) : (a ++ b).data = a.data ++ b.data := by
  cases a; cases b; rfl

/-- Loose equality against a parsed JSON string is exact equality of the
optional metadata string with that string. -/
theorem jsEqMeta_str (m : Option String) (id : String) :
    jsEqMeta m (some (Json.str id)) = decide (m = some id) := by
  cases m with
  | none => simp [jsEqMeta]
  | some s => simp [jsEqMeta]

/-- `List.find?` returns the first element satisfying the predicate: if no
element of the leading segment satisfies it and `x` does, `x` is returned. -/
theorem find?_first_match {α : Type} (p : α → Bool) :
    ∀ (pre : List α) (x : α) (post : List α),
      (∀ y ∈ pre, p y = false) → p x = true →
      List.find? p (pre ++ x :: post) = some x := by
  intro pre
  induction pre with
  | nil =>
    intro x post _ hx
    simp [List.find?, hx]
  | cons y ys ih =>
    intro x post hpre hx
    have hy : p y = false := hpre y (by simp)
    simp only [List.cons_append, List.find?, hy]
    exact ih x post (fun z hz => hpre z (by simp [hz])) hx

/-! ## Claims -/

/-- C1: the spec requires that a parsed selection decision whose
`element_id` matches no element of the document array makes the run fail
with `SelectionUnresolved` before the reformat stage.  The code does not:
resolution yields no match, the table content becomes `undefined`, and the
run proceeds through the reformat stage and succeeds.  This theorem
evaluates the pipeline at such an input: the decision names `zzz`, the
array only holds `e1`, resolution returns nothing, yet the run returns a
successful result. -/
theorem c1_unresolved_selection_does_not_fail :
    resolvedDoc [mkDoc "e1" (some "<table>x</table>")]
        (Json.obj [("element_id", Json.str "zzz"), ("filename", Json.str "f.pdf")]) = none ∧
    reportChain [mkDoc "e1" (some "<table>x</table>")] cfgA
        (stubExt [mkDoc "e1" (some "<table>x</table>")] (selFor "zzz") refGoodResp)
      = Except.ok refGoodJson :=
  ⟨rfl, rfl⟩

/-- C2: the spec requires a "missing source content" failure when the
selected element has empty or absent raw content.  The code does not check
the content: with `text_as_html` absent the resolved content is
`undefined`, with `text_as_html` empty it is the empty string, and in both
runs the pipeline proceeds into the reformat stage and succeeds. -/
theorem c2_missing_content_does_not_fail :
    reportChain [mkDoc "e1" none] cfgA
        (stubExt [mkDoc "e1" none] (selFor "e1") refGoodResp) = Except.ok refGoodJson ∧
    reportChain [mkDoc "e1" (some "")] cfgA
        (stubExt [mkDoc "e1" (some "")] (selFor "e1") refGoodResp) = Except.ok refGoodJson ∧
    tableContentOf [mkDoc "e1" none]
        (Json.obj [("element_id", Json.str "e1"), ("filename", Json.str "f.pdf")]) = none :=
  ⟨rfl, rfl, rfl⟩

/-- C3: the spec requires every successful run to return both
`originalContent` and `reformattedContent`, with `originalContent` the
verbatim raw content of the matched element.  The code returns only the
parsed JSON of the reformatting model answer; evaluated at end-to-end
scenario A, the successful result holds a `reformatted_content` field but
no original-content field at all. -/
theorem c3_success_lacks_original_content :
    reportChain [scenDoc] cfgA (stubExt [scenDoc] (selFor "e1") scenRefResp)
      = Except.ok (Json.obj [("reformatted_content", Json.str scenHtml)]) ∧
    Json.getField (Json.obj [("reformatted_content", Json.str scenHtml)]) "original_content"
      = none :=
  ⟨rfl, rfl⟩

/-- C4: the spec requires a `RetrievalFailed` error and no model calls when
retrieval returns zero candidates.  The code carries on: with an empty
candidate list the disambiguation model is still consulted (its answer
drives the rest of the run) and the run completes successfully. -/
theorem c4_zero_candidates_still_runs :
    candidates cfgA (stubExt [] (selFor "e1") refGoodResp) = [] ∧
    selectionResponse cfgA (stubExt [] (selFor "e1") refGoodResp) = selFor "e1" ∧
    reportChain [mkDoc "e1" (some "<t>x</t>")] cfgA (stubExt [] (selFor "e1") refGoodResp)
      = Except.ok refGoodJson :=
  ⟨rfl, rfl, rfl⟩

/-- C5 counterexample: the claim says the formatted query contains all four
configuration fields verbatim, but the search template never mentions the
document name: for a well-formed configuration whose `docName` is `XYZDOC`,
the query does not contain it. -/
theorem c5_docName_absent_from_query :
    cfg5.docName = "XYZDOC" ∧ hasSub cfg5.docName (searchQuery cfg5) = false :=
  ⟨rfl, rfl⟩

/-- C5 amended: for every well-formed configuration the formatted query is
a non-empty string containing the company name, report type and document
type verbatim (the document name is not part of the template). -/
theorem c5_query_contains_three_fields (cfg : DocConfig)
    (h1 : cfg.docName ≠ "") (h2 : cfg.companyName ≠ "")
    (h3 : cfg.docType ≠ "") (h4 : cfg.reportType ≠ "") :
    (searchQuery cfg).data ≠ [] ∧
    (∃ l r, (searchQuery cfg).data = l ++ cfg.companyName.data ++ r) ∧
    (∃ l r, (searchQuery cfg).data = l ++ cfg.reportType.data ++ r) ∧
    (∃ l r, (searchQuery cfg).data = l ++ cfg.docType.data ++ r) := by
  have hq : (searchQuery cfg).data =
      "What is ".data ++ cfg.companyName.data ++ "s ".data ++ cfg.reportType.data ++
        " for their ".data ++ cfg.docType.data ++ " statement?".data := by
    simp [searchQuery, data_append]
  refine ⟨?_, ?_, ?_, ?_⟩
  · intro h
    rw [hq] at h
    simp at h
  · exact ⟨"What is ".data,
      "s ".data ++ cfg.reportType.data ++ " for their ".data ++ cfg.docType.data ++
        " statement?".data, by simp [hq, List.append_assoc]⟩
  · exact ⟨"What is ".data ++ cfg.companyName.data ++ "s ".data,
      " for their ".data ++ cfg.docType.data ++ " statement?".data,
      by simp [hq, List.append_assoc]⟩
  · exact ⟨"What is ".data ++ cfg.companyName.data ++ "s ".data ++ cfg.reportType.data ++
      " for their ".data, " statement?".data, by simp [hq, List.append_assoc]⟩

/-- C5 witness: the amended statement evaluated at a concrete well-formed
configuration. -/
theorem c5_query_contains_three_fields_witness :
    (searchQuery cfgA).data ≠ [] ∧
    (∃ l r, (searchQuery cfgA).data = l ++ cfgA.companyName.data ++ r) ∧
    (∃ l r, (searchQuery cfgA).data = l ++ cfgA.reportType.data ++ r) ∧
    (∃ l r, (searchQuery cfgA).data = l ++ cfgA.docType.data ++ r) :=
  c5_query_contains_three_fields cfgA (by decide) (by decide) (by decide) (by decide)

/-- C6: whenever the disambiguation model answer is not valid JSON, the run
fails with the selection-stage parse error carrying that raw answer; in
particular no decision is produced and no candidate is selected as a
fallback. -/
theorem c6_invalid_selection_json_fails (docArray : List Document) (cfg : DocConfig)
    (ext : ExternalClients) (h : jsonParse (selectionResponse cfg ext) = none) :
    reportChain docArray cfg ext
      = Except.error (ChainError.selectionParseError (selectionResponse cfg ext)) := by
  unfold reportChain
  rw [h]

/-- C6 witness: with a model answering free-form prose, the run fails with
the selection-stage parse error. -/
theorem c6_invalid_selection_json_fails_witness :
    jsonParse (selectionResponse cfgA extProse) = none ∧
    reportChain [] cfgA extProse
      = Except.error (ChainError.selectionParseError (selectionResponse cfgA extProse)) :=
  ⟨rfl, c6_invalid_selection_json_fails [] cfgA extProse rfl⟩

/-- C7: when the parsed decision carries a string `element_id`, resolution
is a scan of the full document array (not the candidate set) under exact
equality on the `element_id` metadata, and the first matching element in
array order is the one selected. -/
theorem c7_resolution_full_array_first_match (docArray : List Document) (j : Json)
    (id : String) (h : Json.getField j "element_id" = some (Json.str id)) :
    resolvedDoc docArray j
      = List.find? (fun d => decide (d.metadata.element_id = some id)) docArray ∧
    (∀ pre x post, docArray = pre ++ x :: post →
      (∀ y ∈ pre, y.metadata.element_id ≠ some id) →
      x.metadata.element_id = some id →
      resolvedDoc docArray j = some x) := by
  have hfun : (fun d : Document => jsEqMeta d.metadata.element_id (Json.getField j "element_id"))
      = (fun d : Document => decide (d.metadata.element_id = some id)) := by
    funext d
    rw [h]
    exact jsEqMeta_str _ _
  constructor
  · unfold resolvedDoc
    rw [hfun]
  · intro pre x post hd hpre hx
    unfold resolvedDoc
    rw [hfun, hd]
    exact find?_first_match _ pre x post
      (fun y hy => decide_eq_false (hpre y hy)) (decide_eq_true hx)

/-- C7 witness: with two elements sharing the decided id behind a decoy,
resolution equals the first-match scan of the full array. -/
theorem c7_resolution_full_array_first_match_witness :
    resolvedDoc [mkDoc "a" none, mkDoc "e1" (some "h1"), mkDoc "e1" (some "h2")]
        (Json.obj [("element_id", Json.str "e1")])
      = List.find? (fun d => decide (d.metadata.element_id = some "e1"))
          [mkDoc "a" none, mkDoc "e1" (some "h1"), mkDoc "e1" (some "h2")] :=
  (c7_resolution_full_array_first_match
    [mkDoc "a" none, mkDoc "e1" (some "h1"), mkDoc "e1" (some "h2")]
    (Json.obj [("element_id", Json.str "e1")]) "e1" rfl).1

/-- C8 counterexample: the claim says the reformat stage fails when the
model output lacks `reformatted_content`; but a valid JSON answer without
that field is returned as the successful result, with no failure. -/
theorem c8_missing_field_not_failed :
    reportChain [mkDoc "e1" (some "<t>x</t>")] cfgA
        (stubExt [mkDoc "e1" (some "<t>x</t>")] (selFor "e1") "\x7b\x7d")
      = Except.ok (Json.obj []) :=
  rfl

/-- C8 amended: for a run whose selection decision parsed, the reformat
stage fails (with the reformat-stage parse error, returning no result) if
and only if the reformatting model output is not valid JSON; presence of
the `reformatted_content` field is not checked. -/
theorem c8_reformat_fails_iff_invalid_json (docArray : List Document) (cfg : DocConfig)
    (ext : ExternalClients) (j : Json)
    (h : jsonParse (selectionResponse cfg ext) = some j) :
    (reportChain docArray cfg ext
        = Except.error (ChainError.reformatParseError (reformatResponse docArray cfg ext j))) ↔
      jsonParse (reformatResponse docArray cfg ext j) = none := by
  unfold reportChain
  rw [h]
  unfold finishReformat
  cases hr : jsonParse (reformatResponse docArray cfg ext j) with
  | none => simp [hr]
  | some out => simp [hr]

/-- C8 amended witness: with a reformatting model answering prose, the
failure equivalence evaluated at concrete inputs. -/
theorem c8_reformat_fails_iff_invalid_json_witness :
    (reportChain [mkDoc "e1" (some "<t>x</t>")] cfgA extBadReformat
        = Except.error (ChainError.reformatParseError
            (reformatResponse [mkDoc "e1" (some "<t>x</t>")] cfgA extBadReformat
              (Json.obj [("element_id", Json.str "e1"), ("filename", Json.str "f.pdf")])))) ↔
      jsonParse (reformatResponse [mkDoc "e1" (some "<t>x</t>")] cfgA extBadReformat
          (Json.obj [("element_id", Json.str "e1"), ("filename", Json.str "f.pdf")])) = none :=
  c8_reformat_fails_iff_invalid_json _ _ _ _ rfl

/-- C9: the pipeline is deterministic in its inputs: with the same document
array and configuration, two external client pairs that agree pointwise
(deterministic stubs) produce identical results, so two successive
invocations with the same stubs produce byte-identical output. -/
theorem c9_deterministic (docArray : List Document) (cfg : DocConfig)
    (e1 e2 : ExternalClients)
    (hr : ∀ q, e1.retrieve q = e2.retrieve q) (hl : ∀ p, e1.llm p = e2.llm p) :
    reportChain docArray cfg e1 = reportChain docArray cfg e2 := by
  obtain ⟨r1, l1⟩ := e1
  obtain ⟨r2, l2⟩ := e2
  have h1 : r1 = r2 := funext hr
  have h2 : l1 = l2 := funext hl
  subst h1
  subst h2
  rfl

/-- C9 witness: two separately declared but identically behaving stub
pairs give equal results. -/
theorem c9_deterministic_witness :
    reportChain [mkDoc "e1" (some "x")] cfgA stub9a
      = reportChain [mkDoc "e1" (some "x")] cfgA stub9b :=
  c9_deterministic _ _ _ _ (fun _ => rfl) (fun _ => rfl)

/-- C10: the `docName` configuration field never influences the pipeline:
for two configurations agreeing on company name, document type and report
type (but with arbitrary document names), the runs coincide, since the
query template, both prompts and resolution never read `docName`. -/
theorem c10_docName_irrelevant (docArray : List Document) (ext : ExternalClients)
    (c1 c2 : DocConfig) (h1 : c1.companyName = c2.companyName)
    (h2 : c1.docType = c2.docType) (h3 : c1.reportType = c2.reportType) :
    reportChain docArray c1 ext = reportChain docArray c2 ext := by
  have hresp : selectionResponse c1 ext = selectionResponse c2 ext := by
    unfold selectionResponse selectionPrompt candidates searchQuery
    rw [h1, h2, h3]
  unfold reportChain
  rw [hresp]
  cases jsonParse (selectionResponse c2 ext) <;> rfl

/-- C10 witness: two configurations differing only in the document name
produce the same result. -/
theorem c10_docName_irrelevant_witness :
    reportChain [mkDoc "e1" (some "x")] cfg10a stub9a
      = reportChain [mkDoc "e1" (some "x")] cfg10b stub9a :=
  c10_docName_irrelevant _ _ _ _ rfl rfl rfl

end FinCompiler
